import Mathlib

/-!
Shallow embedding of the native input layer of SF6-combo-master
(src/src-tauri/src/input/mod.rs and src/src-tauri/src/input/platform.rs).

Machine integers are modelled as `Nat` (u8/u16/u64) and `Int` (i16/i32);
the only operation where width matters is the worker's u64
`saturating_add`, modelled explicitly.  External effects (device reads,
the system clock, thread spawning) are passed in as explicit parameters.
-/

namespace SF6

/-- mod.rs: the ordered button-name vocabulary used to expand a mask into
the `down` list of a frame payload.  The last entry is literally "PARry"
in the source. -/
def BUTTON_ORDER : List String := ["LP", "MP", "HP", "LK", "MK", "HK", "DI", "PARry"]

/-- mod.rs `InputSample`: timestamp in ms (u64), direction code (u8),
button-down bitmask (u16). -/
structure InputSample where
  timestamp_ms : Nat
  direction : Nat
  down_mask : Nat
deriving DecidableEq, Repr

/-- mod.rs `InputSample::neutral`. -/
def InputSample.neutral (timestamp_ms : Nat) : InputSample :=
  { timestamp_ms := timestamp_ms, direction := 5, down_mask := 0 }

/-- mod.rs `mask_to_buttons`: iterate `BUTTON_ORDER` with indices and keep
the names whose bit is set in the mask. -/
def mask_to_buttons (mask : Nat) : List String :=
  BUTTON_ORDER.enum.filterMap fun entry =>
    let bit : Nat := 1 <<< entry.1
    if mask &&& bit = bit then some entry.2 else none

/-- mod.rs `NativeInputMode`. -/
inductive NativeInputMode where
  | xinput
  | hid
deriving DecidableEq, Repr

/-- mod.rs `NativeInputDetectResult`. -/
structure NativeInputDetectResult where
  xinput : Bool
  hid : Bool
deriving DecidableEq, Repr

/-! ### The polling worker's frame counter (mod.rs `InputWorker::start`)

The spawned loop keeps a u64 `frame_index`, emits it with each frame
payload and advances it with `saturating_add(1)`.  We model the sequence
of emitted frame indices over a lifetime of `n` ticks. -/

/-- Largest u64 value. -/
def U64_MAX : Nat := 2 ^ 64 - 1

/-- u64 `saturating_add` on the Nat model. -/
def saturating_add_u64 (a b : Nat) : Nat := min (a + b) U64_MAX

/-- Frame indices emitted by the tick loop over `n` iterations, starting
from counter value `i`: each tick emits the current counter and then
advances it by `saturating_add_u64 · 1`. -/
def emittedFramesAux : Nat → Nat → List Nat
  | _, 0 => []
  | i, n + 1 => i :: emittedFramesAux (saturating_add_u64 i 1) n

/-- Frame indices emitted over a worker lifetime of `n` ticks; the counter
starts at 0 (mod.rs line `let mut frame_index: u64 = 0`). -/
def emittedFrames (n : Nat) : List Nat := emittedFramesAux 0 n

/-! ### Runtime state and `input_start` (mod.rs) -/

/-- mod.rs `InputWorker`: a handle holding the stop flag of the spawned
thread (the join handle carries no observable state beyond existence). -/
structure InputWorker where
  stop_flag : Bool
deriving DecidableEq, Repr

/-- mod.rs `input_start`, as a transition on the runtime state's worker
slot.  The current detection result and the outcome of spawning a worker
thread (`InputWorker::start`) are external effects passed as parameters.
Returns the command result, the new worker slot, and whether a new worker
was spawned and installed by this call.  (Mutex poisoning is not
modelled: the lock always succeeds.) -/
def input_start (detect : NativeInputDetectResult) (mode : NativeInputMode)
    (worker : Option InputWorker) (spawn : Except String InputWorker) :
    Except String Unit × Option InputWorker × Bool :=
  if mode = NativeInputMode.xinput ∧ detect.xinput = false then
    (Except.error "Native input mode 'xinput' did not detect a connected controller.",
      worker, false)
  else if mode = NativeInputMode.hid ∧ detect.hid = false then
    (Except.error "Native input mode 'hid' did not detect a supported PS4 HID controller.",
      worker, false)
  else if worker.isSome then
    (Except.ok (), worker, false)
  else
    match spawn with
    | Except.ok w => (Except.ok (), some w, true)
    | Except.error e => (Except.error e, worker, false)

/-! ### platform.rs constants -/

def XINPUT_TRIGGER_THRESHOLD : Nat := 140
def XINPUT_AXIS_DEADZONE : Int := 16384
def TRIGGER_BYTE_THRESHOLD : Nat := 141
def ANALOG_CENTER : Int := 127
def ANALOG_AXIS_DEADZONE : Int := 58

/-- XInput gamepad button bit constants (values fixed by the Windows
XInput API, imported by platform.rs from windows_sys). -/
def XINPUT_GAMEPAD_DPAD_UP : Nat := 0x0001
def XINPUT_GAMEPAD_DPAD_DOWN : Nat := 0x0002
def XINPUT_GAMEPAD_DPAD_LEFT : Nat := 0x0004
def XINPUT_GAMEPAD_DPAD_RIGHT : Nat := 0x0008
def XINPUT_GAMEPAD_START : Nat := 0x0010
def XINPUT_GAMEPAD_BACK : Nat := 0x0020
def XINPUT_GAMEPAD_LEFT_THUMB : Nat := 0x0040
def XINPUT_GAMEPAD_RIGHT_THUMB : Nat := 0x0080
def XINPUT_GAMEPAD_LEFT_SHOULDER : Nat := 0x0100
def XINPUT_GAMEPAD_RIGHT_SHOULDER : Nat := 0x0200
def XINPUT_GAMEPAD_A : Nat := 0x1000
def XINPUT_GAMEPAD_B : Nat := 0x2000
def XINPUT_GAMEPAD_X : Nat := 0x4000
def XINPUT_GAMEPAD_Y : Nat := 0x8000

/-- Modelled from the spec: the physical-button bit layout
(`BUTTON_SOUTH_MASK`, …, `BUTTON_DPAD_RIGHT_MASK`) that platform.rs
imports from the crate root is not among the examined sources; the spec
describes it as a 16-bit mask with one distinct bit per physical button
(face buttons, shoulders, triggers, thumb-clicks, select/start, D-pad
quadrants).  We model the sixteen constants as the sixteen distinct bits
in declaration order. -/
def BUTTON_SOUTH_MASK : Nat := 1 <<< 0
def BUTTON_EAST_MASK : Nat := 1 <<< 1
def BUTTON_WEST_MASK : Nat := 1 <<< 2
def BUTTON_NORTH_MASK : Nat := 1 <<< 3
def BUTTON_L1_MASK : Nat := 1 <<< 4
def BUTTON_R1_MASK : Nat := 1 <<< 5
def BUTTON_L2_MASK : Nat := 1 <<< 6
def BUTTON_R2_MASK : Nat := 1 <<< 7
def BUTTON_SELECT_MASK : Nat := 1 <<< 8
def BUTTON_START_MASK : Nat := 1 <<< 9
def BUTTON_L3_MASK : Nat := 1 <<< 10
def BUTTON_R3_MASK : Nat := 1 <<< 11
def BUTTON_DPAD_UP_MASK : Nat := 1 <<< 12
def BUTTON_DPAD_DOWN_MASK : Nat := 1 <<< 13
def BUTTON_DPAD_LEFT_MASK : Nat := 1 <<< 14
def BUTTON_DPAD_RIGHT_MASK : Nat := 1 <<< 15

/-! ### Direction encoding (platform.rs) -/

/-- platform.rs `to_direction`: numeric-keypad direction code from a
horizontal and a vertical component.  The source's catch-all arm maps
`(-1, -1)` (and anything else) to 1. -/
def to_direction (horizontal vertical : Int) : Nat :=
  if horizontal = 0 ∧ vertical = 0 then 5
  else if horizontal = 1 ∧ vertical = 0 then 6
  else if horizontal = -1 ∧ vertical = 0 then 4
  else if horizontal = 0 ∧ vertical = 1 then 8
  else if horizontal = 0 ∧ vertical = -1 then 2
  else if horizontal = 1 ∧ vertical = 1 then 9
  else if horizontal = -1 ∧ vertical = 1 then 7
  else if horizontal = 1 ∧ vertical = -1 then 3
  else 1

/-- platform.rs `direction_from_ds4_hat`: fixed lookup from the 4-bit hat
nibble to a direction code; any value ≥ 8 is centered and yields 5. -/
def direction_from_ds4_hat (hat : Nat) : Nat :=
  if hat = 0 then 8
  else if hat = 1 then 9
  else if hat = 2 then 6
  else if hat = 3 then 3
  else if hat = 4 then 2
  else if hat = 5 then 1
  else if hat = 6 then 4
  else if hat = 7 then 7
  else 5

/-- platform.rs `direction_from_analog_stick` (bytes are u8, compared as
i32 against center 127 with deadzone 58; the Y axis is inverted). -/
def direction_from_analog_stick (left_x left_y : Nat) : Nat :=
  let horizontal : Int :=
    if (left_x : Int) ≥ ANALOG_CENTER + ANALOG_AXIS_DEADZONE then 1
    else if (left_x : Int) ≤ ANALOG_CENTER - ANALOG_AXIS_DEADZONE then -1
    else 0
  let vertical : Int :=
    if (left_y : Int) ≤ ANALOG_CENTER - ANALOG_AXIS_DEADZONE then 1
    else if (left_y : Int) ≥ ANALOG_CENTER + ANALOG_AXIS_DEADZONE then -1
    else 0
  to_direction horizontal vertical

/-- platform.rs `has_xinput_button`. -/
def has_xinput_button (current expected : Nat) : Bool :=
  current &&& expected = expected

/-! ### XInput decoding (platform.rs `sample_from_xinput_state`) -/

/-- The fields of `XINPUT_STATE.Gamepad` read by the decoder: `wButtons`
(u16), the two analog trigger bytes (u8), and the signed left-stick axes
(i16). -/
structure XinputGamepad where
  wButtons : Nat
  bLeftTrigger : Nat
  bRightTrigger : Nat
  sThumbLX : Int
  sThumbLY : Int
deriving DecidableEq, Repr

/-- platform.rs: `dpad_up` inside `sample_from_xinput_state`. -/
def xinput_dpad_up (g : XinputGamepad) : Bool :=
  has_xinput_button g.wButtons XINPUT_GAMEPAD_DPAD_UP

/-- platform.rs: `dpad_down` inside `sample_from_xinput_state`. -/
def xinput_dpad_down (g : XinputGamepad) : Bool :=
  has_xinput_button g.wButtons XINPUT_GAMEPAD_DPAD_DOWN

/-- platform.rs: `dpad_left` inside `sample_from_xinput_state`. -/
def xinput_dpad_left (g : XinputGamepad) : Bool :=
  has_xinput_button g.wButtons XINPUT_GAMEPAD_DPAD_LEFT

/-- platform.rs: `dpad_right` inside `sample_from_xinput_state`. -/
def xinput_dpad_right (g : XinputGamepad) : Bool :=
  has_xinput_button g.wButtons XINPUT_GAMEPAD_DPAD_RIGHT

/-- platform.rs: `up` — D-pad up OR left stick above the deadzone. -/
def xinput_up (g : XinputGamepad) : Bool :=
  xinput_dpad_up g || decide (g.sThumbLY > XINPUT_AXIS_DEADZONE)

/-- platform.rs: `down` — D-pad down OR left stick below the deadzone. -/
def xinput_down (g : XinputGamepad) : Bool :=
  xinput_dpad_down g || decide (g.sThumbLY < -XINPUT_AXIS_DEADZONE)

/-- platform.rs: `left` — D-pad left OR left stick past the deadzone. -/
def xinput_left (g : XinputGamepad) : Bool :=
  xinput_dpad_left g || decide (g.sThumbLX < -XINPUT_AXIS_DEADZONE)

/-- platform.rs: `right` — D-pad right OR left stick past the deadzone. -/
def xinput_right (g : XinputGamepad) : Bool :=
  xinput_dpad_right g || decide (g.sThumbLX > XINPUT_AXIS_DEADZONE)

/-- platform.rs: `horizontal` — right wins, then left, else 0. -/
def xinputHorizontal (g : XinputGamepad) : Int :=
  if xinput_right g then 1 else if xinput_left g then -1 else 0

/-- platform.rs: `vertical` — up wins, then down, else 0. -/
def xinputVertical (g : XinputGamepad) : Int :=
  if xinput_up g then 1 else if xinput_down g then -1 else 0

/-- platform.rs `sample_from_xinput_state`: decode the gamepad state into
an `InputSample`.  The sequence of `down_mask |= …` statements is
modelled as a chain of lets; `now` is the value of `now_ms()`. -/
def sample_from_xinput_state (g : XinputGamepad) (now : Nat) : InputSample :=
  let buttons := g.wButtons
  let m0 : Nat := 0
  let m1 := if has_xinput_button buttons XINPUT_GAMEPAD_A then m0 ||| BUTTON_SOUTH_MASK else m0
  let m2 := if has_xinput_button buttons XINPUT_GAMEPAD_B then m1 ||| BUTTON_EAST_MASK else m1
  let m3 := if has_xinput_button buttons XINPUT_GAMEPAD_X then m2 ||| BUTTON_WEST_MASK else m2
  let m4 := if has_xinput_button buttons XINPUT_GAMEPAD_Y then m3 ||| BUTTON_NORTH_MASK else m3
  let m5 := if has_xinput_button buttons XINPUT_GAMEPAD_LEFT_SHOULDER then m4 ||| BUTTON_L1_MASK else m4
  let m6 := if has_xinput_button buttons XINPUT_GAMEPAD_RIGHT_SHOULDER then m5 ||| BUTTON_R1_MASK else m5
  let m7 := if g.bLeftTrigger ≥ XINPUT_TRIGGER_THRESHOLD then m6 ||| BUTTON_L2_MASK else m6
  let m8 := if g.bRightTrigger ≥ XINPUT_TRIGGER_THRESHOLD then m7 ||| BUTTON_R2_MASK else m7
  let m9 := if has_xinput_button buttons XINPUT_GAMEPAD_BACK then m8 ||| BUTTON_SELECT_MASK else m8
  let m10 := if has_xinput_button buttons XINPUT_GAMEPAD_START then m9 ||| BUTTON_START_MASK else m9
  let m11 := if has_xinput_button buttons XINPUT_GAMEPAD_LEFT_THUMB then m10 ||| BUTTON_L3_MASK else m10
  let m12 := if has_xinput_button buttons XINPUT_GAMEPAD_RIGHT_THUMB then m11 ||| BUTTON_R3_MASK else m11
  let m13 := if xinput_dpad_up g then m12 ||| BUTTON_DPAD_UP_MASK else m12
  let m14 := if xinput_dpad_down g then m13 ||| BUTTON_DPAD_DOWN_MASK else m13
  let m15 := if xinput_dpad_left g then m14 ||| BUTTON_DPAD_LEFT_MASK else m14
  let m16 := if xinput_dpad_right g then m15 ||| BUTTON_DPAD_RIGHT_MASK else m15
  { timestamp_ms := now
    direction := to_direction (xinputHorizontal g) (xinputVertical g)
    down_mask := m16 }

/-! ### HID report decoding (platform.rs `decode_gp2040_ps4_report`) -/

/-- platform.rs `decode_gp2040_ps4_report`: decode a GP2040-CE PS4-mode
input report (DualShock-4 style, id 0x01) into `(direction, down_mask)`.
Reports shorter than 10 bytes or with a different id yield `none`.
Byte indexing, guarded by the length check, is modelled with `List.getD`. -/
def decode_gp2040_ps4_report (report : List Nat) : Option (Nat × Nat) :=
  if report.length < 10 ∨ report.getD 0 0 ≠ 0x01 then none
  else
    let buttons0 := report.getD 5 0
    let buttons1 := report.getD 6 0
    let left_trigger_analog := report.getD 8 0
    let right_trigger_analog := report.getD 9 0
    let m0 : Nat := 0
    let m1 := if buttons0 &&& 0x20 ≠ 0 then m0 ||| BUTTON_SOUTH_MASK else m0
    let m2 := if buttons0 &&& 0x40 ≠ 0 then m1 ||| BUTTON_EAST_MASK else m1
    let m3 := if buttons0 &&& 0x10 ≠ 0 then m2 ||| BUTTON_WEST_MASK else m2
    let m4 := if buttons0 &&& 0x80 ≠ 0 then m3 ||| BUTTON_NORTH_MASK else m3
    let m5 := if buttons1 &&& 0x01 ≠ 0 then m4 ||| BUTTON_L1_MASK else m4
    let m6 := if buttons1 &&& 0x02 ≠ 0 then m5 ||| BUTTON_R1_MASK else m5
    let m7 := if buttons1 &&& 0x04 ≠ 0 ∨ left_trigger_analog ≥ TRIGGER_BYTE_THRESHOLD then m6 ||| BUTTON_L2_MASK else m6
    let m8 := if buttons1 &&& 0x08 ≠ 0 ∨ right_trigger_analog ≥ TRIGGER_BYTE_THRESHOLD then m7 ||| BUTTON_R2_MASK else m7
    let m9 := if buttons1 &&& 0x10 ≠ 0 then m8 ||| BUTTON_SELECT_MASK else m8
    let m10 := if buttons1 &&& 0x20 ≠ 0 then m9 ||| BUTTON_START_MASK else m9
    let m11 := if buttons1 &&& 0x40 ≠ 0 then m10 ||| BUTTON_L3_MASK else m10
    let m12 := if buttons1 &&& 0x80 ≠ 0 then m11 ||| BUTTON_R3_MASK else m11
    let hat := buttons0 &&& 0x0F
    let dpad_up : Bool := hat = 0 || hat = 1 || hat = 7
    let dpad_down : Bool := hat = 3 || hat = 4 || hat = 5
    let dpad_left : Bool := hat = 5 || hat = 6 || hat = 7
    let dpad_right : Bool := hat = 1 || hat = 2 || hat = 3
    let m13 := if dpad_up then m12 ||| BUTTON_DPAD_UP_MASK else m12
    let m14 := if dpad_down then m13 ||| BUTTON_DPAD_DOWN_MASK else m13
    let m15 := if dpad_left then m14 ||| BUTTON_DPAD_LEFT_MASK else m14
    let m16 := if dpad_right then m15 ||| BUTTON_DPAD_RIGHT_MASK else m15
    let hat_direction := direction_from_ds4_hat hat
    let direction :=
      if hat_direction ≠ 5 then hat_direction
      else direction_from_analog_stick (report.getD 1 0) (report.getD 2 0)
    some (direction, m16)

/-! ### The stateful HID backend poll (platform.rs `Ps4HidNativeSource::poll`) -/

/-- The mutable state of `Ps4HidNativeSource`: the last decoded direction
and mask (the device handle itself carries no decoded state). -/
structure Ps4HidState where
  direction : Nat
  down_mask : Nat
deriving DecidableEq, Repr

/-- platform.rs `Ps4HidNativeSource::poll`.  The outcome of the
non-blocking `read_timeout` is passed in: an error, or the list of bytes
read (its length is the read size).  Returns the sample and the updated
backend state. -/
def ps4Hid_poll (st : Ps4HidState) (readResult : Except String (List Nat)) (now : Nat) :
    Except String (InputSample × Ps4HidState) :=
  match readResult with
  | Except.error e => Except.error ("hidapi read error: " ++ e)
  | Except.ok report =>
    let st' :=
      if report.length > 0 then
        match decode_gp2040_ps4_report report with
        | some (direction, down_mask) => { direction := direction, down_mask := down_mask }
        | none => st
      else st
    Except.ok
      ({ timestamp_ms := now, direction := st'.direction, down_mask := st'.down_mask }, st')

/-- platform.rs `InputSource::poll`: both backend arms apply
`unwrap_or_else` to the backend's fallible poll, substituting
`InputSample::neutral(now_ms())` for any error.  The backend poll's
result is passed in. -/
def inputSource_poll (backendResult : Except String InputSample) (now : Nat) : InputSample :=
  match backendResult with
  | Except.ok sample => sample
  | Except.error _ => InputSample.neutral now

/-- mod.rs: the lowercase wire names of `NativeInputMode` (serde
`rename_all = "lowercase"`), as used in the `start(mode)` API. -/
def mode_string : NativeInputMode → String
  | NativeInputMode.xinput => "xinput"
  | NativeInputMode.hid => "hid"

/-- mod.rs `input_start`: the error message returned when the requested
mode's detection flag is false. -/
def detect_error_message : NativeInputMode → String
  | NativeInputMode.xinput => "Native input mode 'xinput' did not detect a connected controller."
  | NativeInputMode.hid => "Native input mode 'hid' did not detect a supported PS4 HID controller."

/-! ## Theorems -/

/-- C1: the Direction Encoder `to_direction` is a pure function and on
all 9 combinations of horizontal/vertical components drawn from
{-1, 0, +1} its output matches the fixed numeric-keypad table:
(0,0)→5, (1,0)→6, (-1,0)→4, (0,1)→8, (0,-1)→2, (1,1)→9, (-1,1)→7,
(1,-1)→3, (-1,-1)→1. -/
theorem to_direction_keypad_table :
    to_direction 0 0 = 5 ∧ to_direction 1 0 = 6 ∧ to_direction (-1) 0 = 4 ∧
    to_direction 0 1 = 8 ∧ to_direction 0 (-1) = 2 ∧ to_direction 1 1 = 9 ∧
    to_direction (-1) 1 = 7 ∧ to_direction 1 (-1) = 3 ∧ to_direction (-1) (-1) = 1 := by
  decide

/-- C2: `InputSource::poll` never fails outward: whenever the underlying
backend poll returns an error, the result is the neutral sample — the
current timestamp, direction 5 and button mask 0 — so the caller never
observes an error. -/
theorem inputSource_poll_error_neutral (e : String) (now : Nat) :
    inputSource_poll (Except.error e) now = InputSample.neutral now ∧
    (inputSource_poll (Except.error e) now).direction = 5 ∧
    (inputSource_poll (Except.error e) now).down_mask = 0 ∧
    (inputSource_poll (Except.error e) now).timestamp_ms = now :=
  ⟨rfl, rfl, rfl, rfl⟩

/-! ### Frame-counter lemmas (C3) -/

/-- Closed form of the emitted frame indices: starting from a counter
value `i ≤ U64_MAX`, tick `k` emits `min (i + k) U64_MAX`. -/
theorem emittedFramesAux_eq (n : Nat) :
    ∀ i : Nat, i ≤ U64_MAX →
      emittedFramesAux i n = (List.range n).map (fun k => min (i + k) U64_MAX) := by
  induction n with
  | zero => intro i _; simp [emittedFramesAux]
  | succ n ih =>
    intro i hi
    have h1 : saturating_add_u64 i 1 ≤ U64_MAX := by
      simp only [saturating_add_u64]; omega
    rw [emittedFramesAux, List.range_succ_eq_map, List.map_cons, List.map_map, ih _ h1]
    refine congrArg₂ List.cons (by omega) ?_
    refine List.map_congr_left fun k _ => ?_
    simp only [Function.comp, saturating_add_u64]
    omega

/-- Closed form for a whole worker lifetime (counter starts at 0). -/
theorem emittedFrames_eq (n : Nat) :
    emittedFrames n = (List.range n).map (fun k => min k U64_MAX) := by
  have h0 : (0 : Nat) ≤ U64_MAX := Nat.zero_le _
  simpa using emittedFramesAux_eq n 0 h0

/-- C3 (counterexample): the claim fails for a lifetime of 2^64 + 1
frames — the u64 frame counter is advanced with `saturating_add(1)`, so
from the 2^64-th tick on the emitted index stays at 2^64 − 1 and the
emitted sequence is not `0, 1, …, N−1`. -/
theorem emittedFrames_ne_range_at_saturation :
    emittedFrames (2 ^ 64 + 1) ≠ List.range (2 ^ 64 + 1) := by
  intro hEq
  have h1 := congrArg (fun l => l[(2 : Nat) ^ 64]?) hEq
  rw [emittedFrames_eq] at h1
  simp only [List.getElem?_map, List.getElem?_range (Nat.lt_succ_self _)] at h1
  simp only [Option.map_some', Option.some.injEq, U64_MAX] at h1
  omega

/-- C3 (amended): across any worker lifetime of `N ≤ 2^64` emitted frame
events, the emitted frame indices are exactly `0, 1, …, N−1` in emission
order — no gaps, no repeats, starting at 0.  (Beyond 2^64 ticks the u64
counter saturates at 2^64 − 1; see the counterexample.) -/
theorem emittedFrames_exact_range (n : Nat) (h : n ≤ 2 ^ 64) :
    emittedFrames n = List.range n := by
  rw [emittedFrames_eq]
  conv_rhs => rw [← List.map_id (List.range n)]
  refine List.map_congr_left fun k hk => ?_
  rw [List.mem_range] at hk
  simp only [U64_MAX, id]
  omega

/-- C3 witness: a concrete 3-tick lifetime emits frames 0, 1, 2. -/
theorem emittedFrames_exact_range_witness : emittedFrames 3 = List.range 3 :=
  emittedFrames_exact_range 3 (by norm_num)

/-! ### `input_start` lifecycle (C4, C8) -/

/-- C4 (counterexample): with a worker already installed, `start` is not
unconditionally a success — `input_start` runs detection first, so
requesting xinput while `detect.xinput` is false returns an error even
though a Worker Handle is installed. -/
theorem input_start_not_unconditionally_idempotent :
    (input_start ⟨false, false⟩ NativeInputMode.xinput (some ⟨false⟩)
        (Except.ok ⟨false⟩)).1 ≠ Except.ok () := by
  simp [input_start]

/-- C4 (amended): the Runtime State holds at most one worker (an
optional slot), and `start` is idempotent once detection passes: in
every state with a Worker Handle already installed, if the requested
mode's detection flag is true then `input_start` returns success,
leaves the installed handle unchanged and spawns no second worker. -/
theorem input_start_idempotent (detect : NativeInputDetectResult)
    (mode : NativeInputMode) (w : InputWorker) (spawn : Except String InputWorker)
    (hx : mode = NativeInputMode.xinput → detect.xinput = true)
    (hh : mode = NativeInputMode.hid → detect.hid = true) :
    input_start detect mode (some w) spawn = (Except.ok (), some w, false) := by
  cases mode
  · simp [input_start, hx rfl]
  · simp [input_start, hh rfl]

/-- C4 witness: a second `start` with both devices detected and a worker
installed succeeds without installing or spawning anything. -/
theorem input_start_idempotent_witness :
    input_start ⟨true, true⟩ NativeInputMode.xinput (some ⟨false⟩) (Except.ok ⟨false⟩) =
      (Except.ok (), some ⟨false⟩, false) :=
  input_start_idempotent ⟨true, true⟩ NativeInputMode.xinput ⟨false⟩ (Except.ok ⟨false⟩)
    (fun _ => rfl) (fun _ => rfl)

/-- C8: when the requested mode's detection flag is false, `input_start`
fails immediately with the descriptive message for that mode, the
message contains the requested mode's name, the worker slot is left
unchanged and no worker is spawned (so the call never emits a frame). -/
theorem input_start_detect_mismatch (detect : NativeInputDetectResult)
    (mode : NativeInputMode) (worker : Option InputWorker)
    (spawn : Except String InputWorker)
    (h : (mode = NativeInputMode.xinput ∧ detect.xinput = false) ∨
      (mode = NativeInputMode.hid ∧ detect.hid = false)) :
    input_start detect mode worker spawn =
      (Except.error (detect_error_message mode), worker, false) ∧
    (mode_string mode).data <:+: (detect_error_message mode).data := by
  rcases h with ⟨hm, hd⟩ | ⟨hm, hd⟩ <;> subst hm
  · exact ⟨by simp [input_start, hd, detect_error_message], by decide⟩
  · exact ⟨by simp [input_start, hd, detect_error_message], by decide⟩

/-- C8 witness: requesting xinput while detection reports
`xinput: false` returns the error naming "xinput", installs nothing and
spawns nothing. -/
theorem input_start_detect_mismatch_witness :
    (input_start ⟨false, true⟩ NativeInputMode.xinput none (Except.ok ⟨false⟩) =
      (Except.error (detect_error_message NativeInputMode.xinput), none, false) ∧
      ("xinput".data <:+: (detect_error_message NativeInputMode.xinput).data)) ∧
    detect_error_message NativeInputMode.xinput =
      "Native input mode 'xinput' did not detect a connected controller." :=
  ⟨input_start_detect_mismatch ⟨false, true⟩ NativeInputMode.xinput none
      (Except.ok ⟨false⟩) (Or.inl ⟨rfl, rfl⟩), rfl⟩

/-! ### HID decode theorems (C5, C6) -/

/-- C5: on every valid report (length ≥ 10, id 0x01), a non-centered hat
nibble (0–7) decides the direction through the fixed hat lookup table
(0→8, 1→9, 2→6, 3→3, 4→2, 5→1, 6→4, 7→7) regardless of the
analog-stick bytes, and only a centered hat (≥ 8) lets the direction be
computed from the left stick's X/Y bytes. -/
theorem decode_hat_priority (r1 r2 r3 r4 r5 r6 r7 r8 r9 : Nat) (rest : List Nat) :
    ((r5 &&& 0x0F) < 8 →
      (decode_gp2040_ps4_report
          (0x01 :: r1 :: r2 :: r3 :: r4 :: r5 :: r6 :: r7 :: r8 :: r9 :: rest)).map Prod.fst =
        some (direction_from_ds4_hat (r5 &&& 0x0F))) ∧
    (8 ≤ (r5 &&& 0x0F) →
      (decode_gp2040_ps4_report
          (0x01 :: r1 :: r2 :: r3 :: r4 :: r5 :: r6 :: r7 :: r8 :: r9 :: rest)).map Prod.fst =
        some (direction_from_analog_stick r1 r2)) ∧
    (direction_from_ds4_hat 0 = 8 ∧ direction_from_ds4_hat 1 = 9 ∧
      direction_from_ds4_hat 2 = 6 ∧ direction_from_ds4_hat 3 = 3 ∧
      direction_from_ds4_hat 4 = 2 ∧ direction_from_ds4_hat 5 = 1 ∧
      direction_from_ds4_hat 6 = 4 ∧ direction_from_ds4_hat 7 = 7) := by
  have hb : r5 &&& 0x0F ≤ 15 := Nat.and_le_right
  have hlen : ¬((0x01 :: r1 :: r2 :: r3 :: r4 :: r5 :: r6 :: r7 :: r8 :: r9 :: rest).length < 10 ∨
      (0x01 :: r1 :: r2 :: r3 :: r4 :: r5 :: r6 :: r7 :: r8 :: r9 :: rest).getD 0 0 ≠ 0x01) := by
    simp
  refine ⟨?_, ?_, by decide⟩
  · intro h
    have h5 : direction_from_ds4_hat (r5 &&& 0x0F) ≠ 5 :=
      (by decide : ∀ x : Nat, x < 8 → direction_from_ds4_hat x ≠ 5) _ h
    simp only [decode_gp2040_ps4_report, if_neg hlen]
    simp [h5]
  · intro h
    have h5 : direction_from_ds4_hat (r5 &&& 0x0F) = 5 :=
      (by decide : ∀ x : Nat, x ≤ 15 → 8 ≤ x → direction_from_ds4_hat x = 5) _ hb h
    simp only [decode_gp2040_ps4_report, if_neg hlen]
    simp [h5]

/-- C5 witness: a report with hat 2 (right) and the left stick pushed to
a down-right corner still decodes to direction 6, the hat table's value. -/
theorem decode_hat_priority_witness :
    (decode_gp2040_ps4_report [0x01, 200, 200, 0, 0, 2, 0, 0, 0, 0]).map Prod.fst =
      some (direction_from_ds4_hat (2 &&& 0x0F)) ∧
    direction_from_ds4_hat (2 &&& 0x0F) = 6 ∧
    direction_from_analog_stick 200 200 = 3 :=
  ⟨(decode_hat_priority 200 200 0 0 2 0 0 0 0 []).1 (by decide), by decide, by decide⟩

/-- C6: a HID backend poll that reads zero bytes, or a report shorter
than 10 bytes, or a report whose id is not 0x01, returns a sample
carrying the previously decoded direction and button mask unchanged
(and leaves the backend state unchanged) instead of resetting to
neutral. -/
theorem ps4Hid_poll_retains_state (st : Ps4HidState) (report : List Nat) (now : Nat)
    (h : report = [] ∨ report.length < 10 ∨ report.getD 0 0 ≠ 0x01) :
    ps4Hid_poll st (Except.ok report) now =
      Except.ok
        ({ timestamp_ms := now, direction := st.direction, down_mask := st.down_mask }, st) := by
  rcases h with h0 | h0
  · subst h0; rfl
  · have hdec : decode_gp2040_ps4_report report = none := by
      simp only [decode_gp2040_ps4_report]
      rw [if_pos h0]
    simp only [ps4Hid_poll, hdec]
    split <;> rfl

/-- C6 witness: a one-byte report with the wrong id leaves a held
direction 6 / mask 3 untouched in the returned sample and state. -/
theorem ps4Hid_poll_retains_state_witness :
    ps4Hid_poll ⟨6, 3⟩ (Except.ok [2]) 7 = Except.ok (⟨7, 6, 3⟩, ⟨6, 3⟩) :=
  ps4Hid_poll_retains_state ⟨6, 3⟩ [2] 7 (Or.inr (Or.inl (by decide)))

/-! ### Button-list expansion (C7) -/

/-- Helper: keeping or dropping each entry's name yields a sublist of
the name column. -/
theorem filterMap_if_sublist {α : Type} (P : Nat × α → Prop) [DecidablePred P]
    (l : List (Nat × α)) :
    List.Sublist (l.filterMap fun e => if P e then some e.2 else none) (l.map Prod.snd) := by
  induction l with
  | nil => simp
  | cons a l ih =>
    rw [List.map_cons, List.filterMap_cons]
    by_cases hp : P a
    · simpa [hp] using ih.cons₂ a.2
    · simpa [hp] using ih.cons a.2

/-- Helper: when the name column has no duplicates, an entry's name
appears in the filtered list exactly when its entry satisfies the
predicate. -/
theorem mem_filterMap_if {α : Type} [DecidableEq α] (P : Nat × α → Prop) [DecidablePred P]
    (l : List (Nat × α)) (hn : (l.map Prod.snd).Nodup) (p : Nat × α) (hp : p ∈ l) :
    (p.2 ∈ l.filterMap fun e => if P e then some e.2 else none) ↔ P p := by
  induction l with
  | nil => simp at hp
  | cons a l ih =>
    rw [List.map_cons, List.nodup_cons] at hn
    obtain ⟨ha, hn2⟩ := hn
    rcases List.mem_cons.mp hp with rfl | hpl
    · by_cases hPa : P p
      · simp [List.filterMap_cons, hPa]
      · have hnotin : p.2 ∉ l.filterMap fun e => if P e then some e.2 else none :=
          fun hmem => ha ((filterMap_if_sublist P l).subset hmem)
        simp [List.filterMap_cons, hPa, hnotin]
    · have hp2 : p.2 ∈ l.map Prod.snd := List.mem_map_of_mem Prod.snd hpl
      have hne : p.2 ≠ a.2 := fun hco => ha (hco ▸ hp2)
      by_cases hPa : P a
      · simp [List.filterMap_cons, hPa, hne, ih hn2 hpl]
      · simp [List.filterMap_cons, hPa, ih hn2 hpl]

/-- Helper: a mask selects bit `i` under `&&&` exactly when `testBit`
reports that bit set. -/
theorem and_shiftLeft_one_eq_iff (mask i : Nat) :
    (mask &&& (1 <<< i) = (1 <<< i)) ↔ mask.testBit i = true := by
  rw [Nat.shiftLeft_eq, one_mul, Nat.and_two_pow]
  cases h : mask.testBit i <;> simp
  exact (Nat.two_pow_pos i).ne

/-- C7 (counterexample): the eighth button name emitted by
`mask_to_buttons` is literally "PARry", not "Parry" — for the mask with
only bit 7 set the `down` list is `["PARry"]` and does not contain
"Parry". -/
theorem mask_to_buttons_parry_casing :
    mask_to_buttons 128 = ["PARry"] ∧ "Parry" ∉ mask_to_buttons 128 := by
  decide

/-- C7 (amended): for every 16-bit mask, the `down` list is drawn from
the fixed 8-entry ordered vocabulary `LP, MP, HP, LK, MK, HK, DI, PARry`
(the last name's casing is literally "PARry"): the name at index `i`
appears in `mask_to_buttons mask` exactly when bit `i` of the mask is
set, and the names appear in the vocabulary's fixed order
(`mask_to_buttons mask` is a sublist of `BUTTON_ORDER`). -/
theorem mask_to_buttons_bits (mask : Nat) :
    (∀ i : Fin 8, BUTTON_ORDER.getD i.1 "" ∈ mask_to_buttons mask ↔ mask.testBit i.1 = true) ∧
    List.Sublist (mask_to_buttons mask) BUTTON_ORDER := by
  have hre : mask_to_buttons mask =
      BUTTON_ORDER.enum.filterMap
        fun e => if mask &&& (1 <<< e.1) = (1 <<< e.1) then some e.2 else none := rfl
  have hnodup : (BUTTON_ORDER.enum.map Prod.snd).Nodup := by
    rw [List.enum_map_snd]; decide
  constructor
  · intro i
    have hlen : BUTTON_ORDER.enum.length = 8 := rfl
    have hlt : i.1 < BUTTON_ORDER.enum.length := by rw [hlen]; exact i.isLt
    have hgm := List.get_mem BUTTON_ORDER.enum i.1 hlt
    have hkey := mem_filterMap_if
      (fun e => mask &&& (1 <<< e.1) = (1 <<< e.1)) BUTTON_ORDER.enum hnodup
      (BUTTON_ORDER.enum.get ⟨i.1, hlt⟩) hgm
    have hpe : BUTTON_ORDER.enum.get ⟨i.1, hlt⟩ =
        (i.1, BUTTON_ORDER.getD i.1 "") := by
      have h8 : i.1 < BUTTON_ORDER.length := i.isLt
      rw [List.get_eq_getElem, List.getElem_enum, List.getD_eq_getElem _ _ h8]
    rw [hpe] at hkey
    rw [hre, hkey]
    exact and_shiftLeft_one_eq_iff mask i.1
  · have hsub := filterMap_if_sublist
      (fun e : Nat × String => mask &&& (1 <<< e.1) = (1 <<< e.1)) BUTTON_ORDER.enum
    rw [List.enum_map_snd] at hsub
    exact hre ▸ hsub

/-! ### XInput decode theorems (C9, C10) -/

/-- Helper: `testBit` through a conditional `|=` step. -/
theorem testBit_ite_or (c : Prop) [Decidable c] (m mask i : Nat) :
    Nat.testBit (if c then m ||| mask else m) i =
      ((decide c && mask.testBit i) || m.testBit i) := by
  split
  · next h => simp [h, Nat.testBit_or, Bool.or_comm]
  · next h => simp [h]

/-- Helper: `testBit` through the first conditional `|=` step (the
accumulator is still 0). -/
theorem testBit_ite_zero (c : Prop) [Decidable c] (k i : Nat) :
    Nat.testBit (if c then k else 0) i = (decide c && k.testBit i) := by
  split <;> simp_all

/-- Bit 6 (the modelled `BUTTON_L2_MASK` bit) of the XInput-decoded mask
is exactly the left-trigger threshold comparison. -/
theorem xinput_down_mask_L2 (g : XinputGamepad) (now : Nat) :
    Nat.testBit (sample_from_xinput_state g now).down_mask 6 =
      decide (XINPUT_TRIGGER_THRESHOLD ≤ g.bLeftTrigger) := by
  obtain ⟨a1, a2, a3, a4, a5, a6, a7, a8, a9, a10, a11, a12, a13, a14, a15, a16⟩ :
      (Nat.testBit 32768 6 = false) ∧ (Nat.testBit 16384 6 = false) ∧
      (Nat.testBit 8192 6 = false) ∧ (Nat.testBit 4096 6 = false) ∧
      (Nat.testBit 2048 6 = false) ∧ (Nat.testBit 1024 6 = false) ∧
      (Nat.testBit 512 6 = false) ∧ (Nat.testBit 256 6 = false) ∧
      (Nat.testBit 128 6 = false) ∧ (Nat.testBit 64 6 = true) ∧
      (Nat.testBit 32 6 = false) ∧ (Nat.testBit 16 6 = false) ∧
      (Nat.testBit 8 6 = false) ∧ (Nat.testBit 4 6 = false) ∧
      (Nat.testBit 2 6 = false) ∧ (Nat.testBit 1 6 = false) := by decide
  simp [sample_from_xinput_state, BUTTON_SOUTH_MASK, BUTTON_EAST_MASK, BUTTON_WEST_MASK,
    BUTTON_NORTH_MASK, BUTTON_L1_MASK, BUTTON_R1_MASK, BUTTON_L2_MASK, BUTTON_R2_MASK,
    BUTTON_SELECT_MASK, BUTTON_START_MASK, BUTTON_L3_MASK, BUTTON_R3_MASK,
    BUTTON_DPAD_UP_MASK, BUTTON_DPAD_DOWN_MASK, BUTTON_DPAD_LEFT_MASK, BUTTON_DPAD_RIGHT_MASK,
    testBit_ite_or, testBit_ite_zero, a1, a2, a3, a4, a5, a6, a7, a8, a9, a10, a11, a12,
    a13, a14, a15, a16]

/-- Bit 7 (the modelled `BUTTON_R2_MASK` bit) of the XInput-decoded mask
is exactly the right-trigger threshold comparison. -/
theorem xinput_down_mask_R2 (g : XinputGamepad) (now : Nat) :
    Nat.testBit (sample_from_xinput_state g now).down_mask 7 =
      decide (XINPUT_TRIGGER_THRESHOLD ≤ g.bRightTrigger) := by
  obtain ⟨a1, a2, a3, a4, a5, a6, a7, a8, a9, a10, a11, a12, a13, a14, a15, a16⟩ :
      (Nat.testBit 32768 7 = false) ∧ (Nat.testBit 16384 7 = false) ∧
      (Nat.testBit 8192 7 = false) ∧ (Nat.testBit 4096 7 = false) ∧
      (Nat.testBit 2048 7 = false) ∧ (Nat.testBit 1024 7 = false) ∧
      (Nat.testBit 512 7 = false) ∧ (Nat.testBit 256 7 = false) ∧
      (Nat.testBit 128 7 = true) ∧ (Nat.testBit 64 7 = false) ∧
      (Nat.testBit 32 7 = false) ∧ (Nat.testBit 16 7 = false) ∧
      (Nat.testBit 8 7 = false) ∧ (Nat.testBit 4 7 = false) ∧
      (Nat.testBit 2 7 = false) ∧ (Nat.testBit 1 7 = false) := by decide
  simp [sample_from_xinput_state, BUTTON_SOUTH_MASK, BUTTON_EAST_MASK, BUTTON_WEST_MASK,
    BUTTON_NORTH_MASK, BUTTON_L1_MASK, BUTTON_R1_MASK, BUTTON_L2_MASK, BUTTON_R2_MASK,
    BUTTON_SELECT_MASK, BUTTON_START_MASK, BUTTON_L3_MASK, BUTTON_R3_MASK,
    BUTTON_DPAD_UP_MASK, BUTTON_DPAD_DOWN_MASK, BUTTON_DPAD_LEFT_MASK, BUTTON_DPAD_RIGHT_MASK,
    testBit_ite_or, testBit_ite_zero, a1, a2, a3, a4, a5, a6, a7, a8, a9, a10, a11, a12,
    a13, a14, a15, a16]

/-- C9: in XInput decoding each trigger counts as down — its bit is set
in the decoded mask — exactly when its analog byte is at or above the
fixed threshold 140 (`XINPUT_TRIGGER_THRESHOLD`): byte 139 yields
not-down and byte 140 yields down, for both the left and the right
trigger. -/
theorem xinput_trigger_threshold_exact (g : XinputGamepad) (now : Nat) :
    ((sample_from_xinput_state g now).down_mask &&& BUTTON_L2_MASK = BUTTON_L2_MASK ↔
      XINPUT_TRIGGER_THRESHOLD ≤ g.bLeftTrigger) ∧
    ((sample_from_xinput_state g now).down_mask &&& BUTTON_R2_MASK = BUTTON_R2_MASK ↔
      XINPUT_TRIGGER_THRESHOLD ≤ g.bRightTrigger) := by
  constructor
  · rw [show BUTTON_L2_MASK = 1 <<< 6 from rfl, and_shiftLeft_one_eq_iff,
      xinput_down_mask_L2 g now]
    exact decide_eq_true_iff
  · rw [show BUTTON_R2_MASK = 1 <<< 7 from rfl, and_shiftLeft_one_eq_iff,
      xinput_down_mask_R2 g now]
    exact decide_eq_true_iff

/-- C10: in XInput decoding, simultaneous opposite indications on one
axis (from D-pad bits and/or stick deflection — `xinput_right`,
`xinput_left`, `xinput_up`, `xinput_down` each OR the two sources)
resolve with fixed priority: right wins (+1) and up wins (+1), never
neutral on that axis, and the emitted direction is the Direction
Encoder's value on these components. -/
theorem xinput_axis_priority (g : XinputGamepad) (now : Nat) :
    (xinput_right g = true → xinput_left g = true → xinputHorizontal g = 1) ∧
    (xinput_up g = true → xinput_down g = true → xinputVertical g = 1) ∧
    (sample_from_xinput_state g now).direction =
      to_direction (xinputHorizontal g) (xinputVertical g) := by
  refine ⟨fun hr _ => ?_, fun hu _ => ?_, rfl⟩
  · simp [xinputHorizontal, hr]
  · simp [xinputVertical, hu]

/-- C10 witness: with all four D-pad bits held, both axes resolve to +1
(direction 9), not neutral. -/
theorem xinput_axis_priority_witness :
    xinput_right ⟨15, 0, 0, 0, 0⟩ = true ∧ xinput_left ⟨15, 0, 0, 0, 0⟩ = true ∧
    xinput_up ⟨15, 0, 0, 0, 0⟩ = true ∧ xinput_down ⟨15, 0, 0, 0, 0⟩ = true ∧
    xinputHorizontal ⟨15, 0, 0, 0, 0⟩ = 1 ∧ xinputVertical ⟨15, 0, 0, 0, 0⟩ = 1 :=
  ⟨by decide, by decide, by decide, by decide,
    (xinput_axis_priority ⟨15, 0, 0, 0, 0⟩ 0).1 (by decide) (by decide),
    (xinput_axis_priority ⟨15, 0, 0, 0, 0⟩ 0).2.1 (by decide) (by decide)⟩

end SF6
